import Mathlib

/-
Verification development for the stevelang runtime (the steve virtual
machine).  The definitions below are a shallow embedding of the C++ sources:

  * src/steve/vm.h, src/steve/vm.cpp      -- value model, IR decoder,
                                             interpreter dispatch, builtins
  * src/steve/vm_gc.h, src/steve/vm_gc.cpp -- VMGarbageCollector
  * src/steve/gc.h, src/steve/gc.cpp       -- process-wide GarbageCollector

Modelling conventions:
  * C++ int (32-bit) and int64_t values are Lean Int together with explicit
    two's-complement wrapping (wrap32 / wrap64) where the code can overflow.
  * C++ double is modelled by Rat; the only double behaviour the theorems
    rely on is the exact comparison with 0.0, which IEEE-754 satisfies.
  * Raw pointers (void star) are modelled by integer identifiers.
  * unordered_map is modelled by an association list with unique keys;
    map assignment replaces the first binding or appends a fresh one.
  * The operand stack is a Lean list whose HEAD is the vector's BACK
    (push_back = cons, back = head, pop_back = tail).
  * Exceptions thrown by the C++ code are an Except error result.
-/

namespace Stevelang

/-- Errors thrown by the virtual machine: RuntimeError, TypeError and
AccessError from vm_exception.h, a fatal process exit issued by
language::reportError with fatal = true, and a marker for the few
instructions (CALL, INPUT, MEM_MALLOC, MEM_FREE) whose host interaction is
outside this embedding. -/
inductive VMError where
  | runtimeError (msg : String) (line : Int)
  | typeError (msg : String) (line : Int)
  | accessError (msg : String) (line : Int)
  | fatalExit (msg : String)
  | unmodelled (name : String)
deriving Repr, DecidableEq

/-- Model of struct PointerValue (vm.h).  The managed object pointer is an
optional object identifier, the raw pointer is the integer it stores. -/
structure PointerValue where
  obj : Option Int
  ptr : Int
  type : String
  isNull : Bool
  isWeak : Bool
  isRef : Bool
deriving Repr, DecidableEq

/-- Model of the Value variant (vm.h):
std::variant of int, double, bool, std::string, nullptr_t, int64_t,
PointerValue, ListValue, DictValue.  The ListValue / DictValue wrapper
structs are flattened into the list payloads. -/
inductive Value where
  | int (n : Int)
  | double (d : Rat)
  | bool (b : Bool)
  | str (s : String)
  | null
  | long (n : Int)
  | ptr (p : PointerValue)
  | list (items : List Value)
  | dict (items : List (String × Value))

/-- Two's-complement wrap to 64 bits, the arithmetic int64_t performs. -/
def wrap64 (x : Int) : Int := (x + 2 ^ 63) % 2 ^ 64 - 2 ^ 63

/-- Two's-complement wrap to 32 bits, the arithmetic int performs. -/
def wrap32 (x : Int) : Int := (x + 2 ^ 31) % 2 ^ 32 - 2 ^ 31

/-- Whether the variant currently holds a double. -/
def Value.isDouble : Value → Bool
  | .double _ => true
  | _ => false

/-- Whether the variant currently holds an int or an int64_t. -/
def Value.isIntLike : Value → Bool
  | .int _ => true
  | .long _ => true
  | _ => false

/-- Whether the variant currently holds a string. -/
def Value.isStr : Value → Bool
  | .str _ => true
  | _ => false

/-- Whether the variant currently holds a PointerValue. -/
def Value.isPtr : Value → Bool
  | .ptr _ => true
  | _ => false

/-- Whether the variant currently holds a ListValue. -/
def Value.isList : Value → Bool
  | .list _ => true
  | _ => false

/-- Whether the variant currently holds a DictValue. -/
def Value.isDict : Value → Bool
  | .dict _ => true
  | _ => false

mutual

/-- Structural equality of runtime values, used by the dictionary branch of
performBinaryOperation (the element-wise comparison written there as the
variant operator on Value). -/
def valueBeq : Value → Value → Bool
  | .int a, .int b => a == b
  | .double a, .double b => a == b
  | .bool a, .bool b => a == b
  | .str a, .str b => a == b
  | .null, .null => true
  | .long a, .long b => a == b
  | .ptr a, .ptr b =>
      a.obj == b.obj && a.ptr == b.ptr && a.type == b.type &&
      a.isNull == b.isNull && a.isWeak == b.isWeak && a.isRef == b.isRef
  | .list a, .list b => valueListBeq a b
  | .dict a, .dict b => valueDictBeq a b
  | _, _ => false

/-- Element-wise equality of value lists. -/
def valueListBeq : List Value → List Value → Bool
  | [], [] => true
  | x :: xs, y :: ys => valueBeq x y && valueListBeq xs ys
  | _, _ => false

/-- Element-wise equality of key and value pair lists. -/
def valueDictBeq : List (String × Value) → List (String × Value) → Bool
  | [], [] => true
  | (k1, v1) :: xs, (k2, v2) :: ys => k1 == k2 && valueBeq v1 v2 && valueDictBeq xs ys
  | _, _ => false

end

/-- Emptiness test of std::string, phrased over the character list. -/
def strEmpty (s : String) : Bool := s.data.isEmpty

/-- Model of VirtualMachine::getBoolValue (vm.cpp).  The chain tests int,
int64_t, double, bool, string, nullptr, ListValue, DictValue; a PointerValue
matches none of them and falls through to the final return false. -/
def getBoolValue : Value → Bool
  | .int n => n != 0
  | .long n => n != 0
  | .double d => d != 0
  | .bool b => b
  | .str s => !strEmpty s
  | .null => false
  | .list l => !l.isEmpty
  | .dict d => !d.isEmpty
  | .ptr _ => false

/-- Model of VirtualMachine::getDoubleValue (vm.cpp).  Strings, null and
pointers fall through to the final return 0.0. -/
def getDoubleValue : Value → Rat
  | .double d => d
  | .int n => (n : Rat)
  | .long n => (n : Rat)
  | .bool b => if b then 1 else 0
  | .list l => (l.length : Rat)
  | .dict d => (d.length : Rat)
  | _ => 0

/-- Model of VirtualMachine::getInt64Value (vm.cpp).  The pointer case
returns the raw address; doubles, strings and null fall through to the final
return 0. -/
def getInt64Value : Value → Int
  | .long n => n
  | .int n => n
  | .bool b => if b then 1 else 0
  | .ptr p => p.ptr
  | .list l => (l.length : Int)
  | .dict d => (d.length : Int)
  | _ => 0

/-- Model of VirtualMachine::performBinaryOperation (vm.cpp).  The branch
order follows the source: double promotion first, then the both-integer
branch (which converts both sides with getInt64Value and computes in 64-bit
two's complement), then strings, pointers, list concatenation, list
replication and dictionary comparison; any other combination throws
TypeError.  The two trailing if-chains without an else (list replication
with a non-integer count, dictionary comparison with a non-dictionary)
fall off the chain and hit the final return Value(0) of the function. -/
def performBinaryOperation (left right : Value) (op : String) (line : Int) :
    Except VMError Value :=
  if left.isDouble || right.isDouble then
    let lv := getDoubleValue left
    let rv := getDoubleValue right
    if op == "+" then .ok (.double (lv + rv))
    else if op == "-" then .ok (.double (lv - rv))
    else if op == "*" then .ok (.double (lv * rv))
    else if op == "/" then
      if rv == 0 then .error (.runtimeError ("Division by zero error") line)
      else .ok (.double (lv / rv))
    else if op == "==" then .ok (.bool (lv == rv))
    else if op == "!=" then .ok (.bool (lv != rv))
    else if op == "<" then .ok (.bool (decide (lv < rv)))
    else if op == ">" then .ok (.bool (decide (rv < lv)))
    else if op == "<=" then .ok (.bool (decide (lv ≤ rv)))
    else if op == ">=" then .ok (.bool (decide (rv ≤ lv)))
    else if op == "and" || op == "&&" then .ok (.bool ((lv != 0) && (rv != 0)))
    else if op == "or" || op == "||" then .ok (.bool ((lv != 0) || (rv != 0)))
    else .error (.typeError ("Unsupported operator for floating point: " ++ op) line)
  else if left.isIntLike && right.isIntLike then
    let lv := getInt64Value left
    let rv := getInt64Value right
    if op == "+" then .ok (.long (wrap64 (lv + rv)))
    else if op == "-" then .ok (.long (wrap64 (lv - rv)))
    else if op == "*" then .ok (.long (wrap64 (lv * rv)))
    else if op == "/" then
      if rv == 0 then .error (.runtimeError ("Division by zero error") line)
      else .ok (.long (wrap64 (lv.tdiv rv)))
    else if op == "%" then
      if rv == 0 then .error (.runtimeError ("Modulo by zero error") line)
      else .ok (.long (wrap64 (lv.tmod rv)))
    else if op == "==" then .ok (.bool (lv == rv))
    else if op == "!=" then .ok (.bool (lv != rv))
    else if op == "<" then .ok (.bool (decide (lv < rv)))
    else if op == ">" then .ok (.bool (decide (rv < lv)))
    else if op == "<=" then .ok (.bool (decide (lv ≤ rv)))
    else if op == ">=" then .ok (.bool (decide (rv ≤ lv)))
    else if op == "and" || op == "&&" then .ok (.bool ((lv != 0) && (rv != 0)))
    else if op == "or" || op == "||" then .ok (.bool ((lv != 0) || (rv != 0)))
    else .error (.typeError ("Unsupported operator for integer: " ++ op) line)
  else
    match left, right with
    | .str a, .str b =>
      if op == "+" then .ok (.str (a ++ b))
      else if op == "==" then .ok (.bool (a == b))
      else if op == "!=" then .ok (.bool (a != b))
      else .error (.typeError ("Unsupported operator for string: " ++ op) line)
    | _, _ =>
      if left.isPtr || right.isPtr then
        if op == "==" then
          match left, right with
          | .ptr lp, .ptr rp => .ok (.bool (lp.ptr == rp.ptr))
          | _, _ =>
            let leftIsNull := match left with | .ptr lp => lp.isNull | _ => true
            let rightIsNull := match right with | .ptr rp => rp.isNull | _ => true
            .ok (.bool (leftIsNull && rightIsNull))
        else if op == "!=" then
          match left, right with
          | .ptr lp, .ptr rp => .ok (.bool (lp.ptr != rp.ptr))
          | _, _ =>
            let leftIsNull := match left with | .ptr lp => lp.isNull | _ => true
            let rightIsNull := match right with | .ptr rp => rp.isNull | _ => true
            .ok (.bool (leftIsNull != rightIsNull))
        else if op == "=" then
          match right with
          | .ptr _ => .ok right
          | _ => .error (.typeError ("Unsupported operator for pointer: " ++ op) line)
        else .error (.typeError ("Unsupported operator for pointer: " ++ op) line)
      else
        match left, right with
        | .list a, .list b =>
          if op == "+" then .ok (.list (a ++ b))
          else if op == "*" then
            -- list replication demands an integer count; a list count fails
            -- the inner test and the function falls through to return Value(0)
            .ok (.int 0)
          else .error (.typeError ("Binary operation type mismatch") line)
        | .list a, _ =>
          if op == "*" then
            match right with
            | .int n => .ok (.list (List.flatten (List.replicate n.toNat a)))
            | .long n => .ok (.list (List.flatten (List.replicate n.toNat a)))
            | _ => .ok (.int 0)
          else .error (.typeError ("Binary operation type mismatch") line)
        | .dict a, _ =>
          if op == "==" then
            match right with
            | .dict b =>
              if a.length != b.length then .ok (.bool false)
              else
                .ok (.bool (a.all (fun p =>
                  match b.lookup p.1 with
                  | some v => valueBeq v p.2
                  | none => false)))
            | _ =>
              -- a non-dictionary right side fails the inner test and the
              -- function falls through to return Value(0)
              .ok (.int 0)
          else .error (.typeError ("Binary operation type mismatch") line)
        | _, _ => .error (.typeError ("Binary operation type mismatch") line)

/-- Model of VirtualMachine::performUnaryOperation (vm.cpp).  Unary minus on
int and int64_t is two's-complement negation; logical not uses the shared
truthiness function. -/
def performUnaryOperation (operand : Value) (op : String) (line : Int) :
    Except VMError Value :=
  if op == "-" then
    match operand with
    | .int n => .ok (.int (wrap32 (-n)))
    | .long n => .ok (.long (wrap64 (-n)))
    | .double d => .ok (.double (-d))
    | _ => .error (.typeError ("Invalid operand type for unary minus") line)
  else if op == "!" || op == "not" then .ok (.bool (!getBoolValue operand))
  else .error (.typeError ("Unsupported unary operator: " ++ op) line)

/-- Model of enum class InstructionType (vm.h). -/
inductive InstructionType where
  | DEFVAR | LOAD | STORE | FUNC | CALL | IF | ELSE | END | WHILE | DO
  | RETURN | IMPORT | PRINT | INPUT | BINARY_OP | UNARY_OP | PUSH | POP
  | GOTO | LABEL | GC_NEW | GC_DELETE | GC_RUN | MEM_MALLOC | MEM_FREE
  | TRY | CATCH | BREAK | CONTINUE | PASS | PACKAGE | PTR_NEW | PTR_DEREF
  | THROW | NOP | DEBUG
deriving Repr, DecidableEq

/-- Model of struct Instruction (vm.h).  Only the fields the interpreter
reads are kept: parseIR fills type, operands and line; the legacy fields
operand1..operand3 and literal are never consulted by decodeAndExecute. -/
structure Instruction where
  type : InstructionType
  operands : List String
  line : Int
deriving Repr, DecidableEq

/-- Characters accepted by the C isspace classifier (used by std::stoi,
std::stod and istringstream extraction). -/
def isCSpace (c : Char) : Bool :=
  c == ' ' || c == '\t' || c == '\n' || c == '\x0b' || c == '\x0c' || c == '\r'

/-- Value of a digit run, most significant first. -/
def digitsToInt (ds : List Char) : Int :=
  ds.foldl (fun acc c => acc * 10 + ((c.toNat : Int) - 48)) 0

/-- Model of std::stoi on a token: skip whitespace, optional sign, then at
least one decimal digit (further characters are ignored); out-of-range
values throw std::out_of_range, no digits throws std::invalid_argument, and
both appear here as none. -/
def stoiChars (cs : List Char) : Option Int :=
  let cs1 := cs.dropWhile isCSpace
  let sign : Int := match cs1 with
    | '-' :: _ => -1
    | _ => 1
  let cs2 := match cs1 with
    | '-' :: rest => rest
    | '+' :: rest => rest
    | other => other
  let ds := cs2.takeWhile Char.isDigit
  if ds.isEmpty then none
  else
    let v := sign * digitsToInt ds
    if v < -(2 ^ 31) || v > 2 ^ 31 - 1 then none else some v

/-- Model of std::stod on a token: sign, integer digits, optional fraction
digits; at least one digit overall, trailing characters ignored.  Exponent
suffixes and hexadecimal floats are not modelled (no IR operand uses them);
the value is exact because every decimal literal here is a rational. -/
def stodChars (cs : List Char) : Option Rat :=
  let cs1 := cs.dropWhile isCSpace
  let sign : Rat := match cs1 with
    | '-' :: _ => -1
    | _ => 1
  let cs2 := match cs1 with
    | '-' :: rest => rest
    | '+' :: rest => rest
    | other => other
  let intDigits := cs2.takeWhile Char.isDigit
  let rest := cs2.dropWhile Char.isDigit
  match rest with
  | '.' :: rest2 =>
    let fracDigits := rest2.takeWhile Char.isDigit
    if intDigits.isEmpty && fracDigits.isEmpty then none
    else
      some (sign * ((digitsToInt intDigits : Rat) +
        (digitsToInt fracDigits : Rat) / ((10 : Rat) ^ fracDigits.length)))
  | _ =>
    if intDigits.isEmpty then none
    else some (sign * (digitsToInt intDigits : Rat))

/-- Whether pat is a prefix of cs, character by character. -/
def isPrefixChars : List Char → List Char → Bool
  | [], _ => true
  | _ :: _, [] => false
  | p :: ps, c :: cs => p == c && isPrefixChars ps cs

/-- Model of std::string::find of a pattern returning a hit: whether pat
occurs as a contiguous run anywhere in cs. -/
def containsSub (pat : List Char) : List Char → Bool
  | [] => isPrefixChars pat []
  | c :: rest => isPrefixChars pat (c :: rest) || containsSub pat rest

/-- The whitespace set of parseIR's trimming calls, find_first_not_of and
find_last_not_of over space, tab, carriage return and newline. -/
def isTrimSpace (c : Char) : Bool :=
  c == ' ' || c == '\t' || c == '\r' || c == '\n'

/-- Trim the leading and trailing whitespace of a character list. -/
def trimChars (cs : List Char) : List Char :=
  ((cs.dropWhile isTrimSpace).reverse.dropWhile isTrimSpace).reverse

/-- Model of istringstream extraction with the shift operator: split a line
into maximal runs of non-whitespace characters. -/
def splitWsGo : List Char → List Char → List (List Char)
  | [], acc => if acc.isEmpty then [] else [acc.reverse]
  | c :: rest, acc =>
    if isCSpace c then
      if acc.isEmpty then splitWsGo rest []
      else acc.reverse :: splitWsGo rest []
    else splitWsGo rest (c :: acc)

/-- Split a character list at every occurrence of sep (std::getline over a
stringstream splits the blob at every newline). -/
def splitChar (sep : Char) : List Char → List (List Char)
  | [] => [[]]
  | c :: rest =>
    let r := splitChar sep rest
    if c == sep then [] :: r
    else
      match r with
      | h :: t => (c :: h) :: t
      | [] => [[c]]

/-- Opcode mnemonic table of parseIR (vm.cpp); unknown mnemonics decode to
NOP. -/
def opcodeOfName (name : String) : InstructionType :=
  if name == "DEFVAR" then .DEFVAR
  else if name == "LOAD" then .LOAD
  else if name == "STORE" then .STORE
  else if name == "FUNC" then .FUNC
  else if name == "CALL" then .CALL
  else if name == "IF" then .IF
  else if name == "ELSE" then .ELSE
  else if name == "END" then .END
  else if name == "WHILE" then .WHILE
  else if name == "DO" then .DO
  else if name == "RETURN" then .RETURN
  else if name == "IMPORT" then .IMPORT
  else if name == "PRINT" then .PRINT
  else if name == "INPUT" then .INPUT
  else if name == "BINARY_OP" then .BINARY_OP
  else if name == "UNARY_OP" then .UNARY_OP
  else if name == "PUSH" then .PUSH
  else if name == "POP" then .POP
  else if name == "GOTO" then .GOTO
  else if name == "LABEL" then .LABEL
  else if name == "TRY" then .TRY
  else if name == "CATCH" then .CATCH
  else if name == "BREAK" then .BREAK
  else if name == "CONTINUE" then .CONTINUE
  else if name == "PASS" then .PASS
  else if name == "PACKAGE" then .PACKAGE
  else if name == "PTR_new" then .PTR_NEW
  else if name == "PTR_DEREF" then .PTR_DEREF
  else if name == "THROW" then .THROW
  else if name == "GC_new" then .GC_NEW
  else if name == "GC_delete" then .GC_DELETE
  else if name == "GC_gc" then .GC_RUN
  else if name == "MEM_malloc" then .MEM_MALLOC
  else if name == "MEM_free" then .MEM_FREE
  else .NOP

/-- Operand post-processing of parseIR: a token of length at least two that
begins and ends with a double quote loses the quotes; otherwise a trailing
comma is stripped. -/
def cleanOperand (tok : List Char) : List Char :=
  if tok.length ≥ 2 && tok.head? == some '"' && tok.getLast? == some '"' then
    (tok.drop 1).dropLast
  else if tok.getLast? == some ',' then tok.dropLast
  else tok

/-- Per-line work of parseIR (vm.cpp): skip empty lines, lines starting
with a semicolon and the IR begin and end markers; strip the trailing
semicolon comment; trim; tokenize; map the mnemonic; clean the operands. -/
def parseIRLine (lineNum : Int) (raw : List Char) : Option Instruction :=
  if raw.isEmpty then none
  else if raw.head? == some ';' then none
  else if containsSub ("# IR BEGIN".data) raw || containsSub ("IR END".data) raw then none
  else
    let noComment := raw.takeWhile (fun c => c != ';')
    let line := trimChars noComment
    if line.isEmpty then none
    else
      match splitWsGo line [] with
      | [] => none
      | name :: rest =>
        some { type := opcodeOfName (String.mk name),
               operands := rest.map (fun t => String.mk (cleanOperand t)),
               line := lineNum }

/-- Model of VirtualMachine::parseIR (vm.cpp): split the blob into lines,
number them from one, and decode each surviving line. -/
def parseIR (irCode : String) : List Instruction :=
  ((splitChar '\n' irCode.data).enum).filterMap
    (fun p => parseIRLine ((p.1 : Int) + 1) p.2)

/-- Model of class VMGarbageCollector (vm_gc.h): the heap set, the root set
and the reference graph.  Cells are integer identifiers standing for the
void pointers of the C++ code; the unordered containers are lists whose
order carries no meaning. -/
structure VMGarbageCollector where
  heap : List Nat
  roots : List Nat
  references : List (Nat × List Nat)
deriving Repr, DecidableEq

/-- Outgoing edges of a cell in a reference graph (empty when absent). -/
def succsOf (refs : List (Nat × List Nat)) (x : Nat) : List Nat :=
  match refs.lookup x with
  | some l => l
  | none => []

/-- One exploration visit of the mark phase of VMGarbageCollector::collect:
scan the successors of x, adding to the visited set and the worklist every
heap member seen for the first time. -/
def vmgcVisit (g : VMGarbageCollector) (x : Nat) (visited worklist : List Nat) :
    List Nat × List Nat :=
  (succsOf g.references x).foldl
    (fun vw y =>
      if g.heap.contains y && !vw.1.contains y then (vw.1 ++ [y], vw.2 ++ [y])
      else vw)
    (visited, worklist)

/-- Worklist loop of the mark phase.  Every cell enters the worklist at most
once (guarded by the visited set), so fuel equal to the heap size plus one
always reaches the fixed point. -/
def vmgcMarkLoop (g : VMGarbageCollector) : Nat → List Nat → List Nat → List Nat
  | 0, visited, _ => visited
  | _ + 1, visited, [] => visited
  | fuel + 1, visited, x :: rest =>
    let vw := vmgcVisit g x visited []
    vmgcMarkLoop g fuel vw.1 (vw.2 ++ rest)

/-- Seeds of the mark phase: the roots that are heap members, each once. -/
def vmgcSeeds (g : VMGarbageCollector) : List Nat :=
  g.roots.foldl
    (fun acc r => if g.heap.contains r && !acc.contains r then acc ++ [r] else acc)
    []

/-- The set of cells VMGarbageCollector::collect marks reachable: a
depth-first traversal of the reference graph from the in-heap roots,
stepping only to targets that are heap members. -/
def vmgcReachable (g : VMGarbageCollector) : List Nat :=
  vmgcMarkLoop g (g.heap.length + 1) (vmgcSeeds g) (vmgcSeeds g)

/-- Model of VMGarbageCollector::collect (vm_gc.cpp).  An empty heap
returns zero immediately.  Otherwise the sweep frees every unreachable cell,
erases its outgoing edges and removes it from every other edge list, and the
trailing cleanup pass drops reference entries whose key left the heap and
filters every surviving edge list down to heap members; the net effect on
the graph is keeping exactly the entries of surviving cells, each filtered
to surviving targets.  The root set is not touched.  Returns the new state
with the number of freed cells. -/
def VMGarbageCollector.collect (g : VMGarbageCollector) : VMGarbageCollector × Nat :=
  if g.heap.isEmpty then (g, 0)
  else
    let reach := vmgcReachable g
    let heap2 := g.heap.filter (fun x => reach.contains x)
    let collected := (g.heap.filter (fun x => !reach.contains x)).length
    let refs2 := (g.references.filter (fun p => heap2.contains p.1)).map
      (fun p => (p.1, p.2.filter (fun y => heap2.contains y)))
    ({ heap := heap2, roots := g.roots, references := refs2 }, collected)

/-- Model of class GarbageCollector (gc.h), the process-wide collector of
gc.cpp: the object list, the root set and the reference graph over GCObject
pointers, again as integer identifiers. -/
structure GarbageCollector where
  objects : List Nat
  rootObjects : List Nat
  references : List (Nat × List Nat)
deriving Repr, DecidableEq

/-- One exploration visit of GarbageCollector::mark: scan the successors of
x and mark every one not yet marked.  Unlike the VM collector, membership in
the object list is NOT checked. -/
def gcVisit (refs : List (Nat × List Nat)) (x : Nat) (marked worklist : List Nat) :
    List Nat × List Nat :=
  (succsOf refs x).foldl
    (fun mw y =>
      if !mw.1.contains y then (mw.1 ++ [y], mw.2 ++ [y]) else mw)
    (marked, worklist)

/-- Worklist loop of GarbageCollector::mark. -/
def gcMarkLoop (refs : List (Nat × List Nat)) : Nat → List Nat → List Nat → List Nat
  | 0, marked, _ => marked
  | _ + 1, marked, [] => marked
  | fuel + 1, marked, x :: rest =>
    let mw := gcVisit refs x marked []
    gcMarkLoop refs fuel mw.1 (mw.2 ++ rest)

/-- Seeds of GarbageCollector::mark: every root is marked, without any
membership check against the object list. -/
def gcSeeds (roots : List Nat) : List Nat :=
  roots.foldl (fun acc r => if acc.contains r then acc else acc ++ [r]) []

/-- Total number of edge endpoints, a fuel bound for the mark loop. -/
def refTargetCount (refs : List (Nat × List Nat)) : Nat :=
  (refs.map (fun p => p.2.length)).sum

/-- The set of objects GarbageCollector::mark leaves marked. -/
def gcMarked (g : GarbageCollector) : List Nat :=
  gcMarkLoop g.references (g.rootObjects.length + refTargetCount g.references + 1)
    (gcSeeds g.rootObjects) (gcSeeds g.rootObjects)

/-- Model of GarbageCollector::collect (gc.cpp).  The mark phase runs, the
sweep deletes every unmarked object from the object list and counts them
into a local variable of sweep that is then discarded; collect returns its
own local collectedCount, which stays zero.  Neither the root set nor the
reference graph is updated, so edges to deleted objects remain in place. -/
def GarbageCollector.collect (g : GarbageCollector) : GarbageCollector × Int :=
  let marked := gcMarked g
  let objects2 := g.objects.filter (fun x => marked.contains x)
  ({ objects := objects2, rootObjects := g.rootObjects, references := g.references }, 0)

/-- Model of struct ManagedObject (vm.h): the raw data payload is the
integer the code stores through the void pointer (for file objects, the
handle identifier). -/
structure ManagedObject where
  data : Int
  type : String
  size : Nat
deriving Repr, DecidableEq

/-- Model of struct FileHandle (vm.h) without the host stream: filename,
mode and whether the open succeeded. -/
structure FileHandle where
  filename : String
  mode : String
  isOpen : Bool
deriving Repr, DecidableEq

/-- Model of struct MachineState (vm.h).  The rax..rdx scratch registers
are omitted: no instruction of the interpreter reads or writes them.  The
source field name variables is a Lean keyword, so the global variable map
is called vars here. -/
structure MachineState where
  pc : Nat
  running : Bool
  scopes : List (List (String × Value))
  program : List Instruction
  stack : List Value
  vars : List (String × Value)
  functions : List (String × Nat)

/-- The members of class VirtualMachine that the modelled instructions
touch: the machine state, both collectors, the file-handle table with its
counter, and the managed-object registry with its counter. -/
structure VMState where
  state : MachineState
  vmgc : VMGarbageCollector
  sgc : GarbageCollector
  fileHandles : List (Int × FileHandle)
  nextFileHandleId : Int
  managedObjects : List (Int × ManagedObject)
  nextObjectId : Int

/-- Assignment into an unordered_map of values: replace the first binding of
the key or append a fresh one. -/
def mapSet (m : List (String × Value)) (k : String) (v : Value) : List (String × Value) :=
  match m with
  | [] => [(k, v)]
  | (k1, v1) :: rest => if k1 == k then (k, v) :: rest else (k1, v1) :: mapSet rest k v

/-- Assignment into the function table. -/
def funcMapSet (m : List (String × Nat)) (k : String) (v : Nat) : List (String × Nat) :=
  match m with
  | [] => [(k, v)]
  | (k1, v1) :: rest => if k1 == k then (k, v) :: rest else (k1, v1) :: funcMapSet rest k v

/-- Fresh machine state of the VirtualMachine constructor: one empty scope
frame, empty stack and maps, pc zero and not running. -/
def initialMachineState (prog : List Instruction) : MachineState :=
  { pc := 0, running := false, scopes := [[]], program := prog,
    stack := [], vars := [], functions := [] }

/-- Fresh VMState of the VirtualMachine constructor: empty collectors and
tables, file-handle counter at 1000, object counter at 1. -/
def initialVMState (prog : List Instruction) : VMState :=
  { state := initialMachineState prog,
    vmgc := { heap := [], roots := [], references := [] },
    sgc := { objects := [], rootObjects := [], references := [] },
    fileHandles := [], nextFileHandleId := 1000,
    managedObjects := [], nextObjectId := 1 }

/-- Forward scan of VirtualMachine::jumpToEnd (vm.cpp): from position
current with the given nesting depth, IF and WHILE deepen, END shallows;
return the position where the depth reaches zero, or program length minus
one when the scan runs off the end.  Fuel bounds the walk; the callers pass
the program length, which the walk can never exceed. -/
def scanMatchingEnd (prog : List Instruction) : Nat → Nat → Int → Nat
  | 0, _, _ => prog.length - 1
  | fuel + 1, current, depth =>
    match prog.get? current with
    | none => prog.length - 1
    | some instr =>
      let depth2 :=
        if instr.type == .IF || instr.type == .WHILE then depth + 1
        else if instr.type == .END then depth - 1
        else depth
      if depth2 == 0 then current
      else scanMatchingEnd prog fuel (current + 1) depth2

/-- Model of VirtualMachine::jumpToEnd (vm.cpp): place the pc on the END
matching the current instruction. -/
def jumpToEnd (s : MachineState) : MachineState :=
  { s with pc := scanMatchingEnd s.program s.program.length (s.pc + 1) 1 }

/-- Forward scan of VirtualMachine::jumpToElseOrEnd.  In the source file
the body of this loop is interleaved with a displaced fragment of
performUnaryOperation; the same-depth ELSE test reconstructed here (stop on
an ELSE while the depth is one) is the reading consistent with the stranded
comment and early return of the fragment.  No theorem below depends on this
branch. -/
def scanElseOrEnd (prog : List Instruction) : Nat → Nat → Int → Nat
  | 0, _, _ => prog.length - 1
  | fuel + 1, current, depth =>
    match prog.get? current with
    | none => prog.length - 1
    | some instr =>
      let depth2 :=
        if instr.type == .IF || instr.type == .WHILE then depth + 1
        else if instr.type == .END then depth - 1
        else depth
      if instr.type == .ELSE && depth2 == 1 then current
      else if depth2 == 0 then current
      else scanElseOrEnd prog fuel (current + 1) depth2

/-- Model of VirtualMachine::jumpToElseOrEnd (vm.cpp). -/
def jumpToElseOrEnd (s : MachineState) : MachineState :=
  { s with pc := scanElseOrEnd s.program s.program.length (s.pc + 1) 1 }

/-- Label scan of the GOTO case of decodeAndExecute: the first program
position holding a LABEL instruction whose first operand is the label. -/
def findLabelIdx (prog : List Instruction) (label : String) : Option Nat :=
  (prog.enum.find? (fun p =>
    p.2.type == .LABEL && p.2.operands.head? == some label)).map (fun p => p.1)

/-- The PointerValue built by the PTR_NEW case of decodeAndExecute:
PointerValue(nullptr, "object", false) sets the object pointer and the raw
pointer to null, so the isNull flag computed by the constructor is true. -/
def ptrNewResult : PointerValue :=
  { obj := none, ptr := 0, type := "object", isNull := true,
    isWeak := false, isRef := false }

/-- Strip a variable name at the first colon, the DEFVAR type-annotation
handling (substr up to find of the colon). -/
def stripTypeAnn (s : String) : String :=
  String.mk (s.data.takeWhile (fun c => c != ':'))

/-- Textual rendering of the PRINT case of decodeAndExecute.  The if-chain
covers string, int, double, bool, null and int64_t; a pointer, list or
dictionary matches no branch, so only the newline is emitted.  The decimal
formatting of doubles is rendered from the rational; no modelled program
prints a double. -/
def renderValue : Value → String
  | .str s => s
  | .int n => toString n
  | .double d => toString d
  | .bool b => if b then "true" else "false"
  | .null => "null"
  | .long n => toString n
  | _ => ""

/-- Model of VirtualMachine::decodeAndExecute (vm.cpp) over the modelled
instruction set.  The result carries the successor VMState and the list of
standard-output lines the instruction emitted; thrown exceptions surface as
errors.  CALL, INPUT, MEM_MALLOC and MEM_FREE interact with the builtin
registry, standard input or raw host memory and are outside this embedding;
they are mapped to the unmodelled marker and appear in no theorem. -/
def decodeAndExecute (instr : Instruction) (vm : VMState) :
    Except VMError (VMState × List String) :=
  let s := vm.state
  match instr.type with
  | .DEFVAR =>
    match instr.operands with
    | [] => .ok (vm, [])
    | varName :: _ =>
      let name := stripTypeAnn varName
      .ok ({ vm with state := { s with vars := mapSet s.vars name (.int 0) } }, [])
  | .LOAD =>
    match instr.operands with
    | [] => .ok (vm, [])
    | operand :: _ =>
      let cs := operand.data
      let pushed : Value :=
        if cs.head?.getD '\x00' == '"' && cs.getLast?.getD '\x00' == '"' then
          -- the string-literal branch; parseIR has already stripped the
          -- quotes from quoted operands, so a parsed program never takes it
          .str (String.mk ((cs.drop 1).dropLast))
        else if operand == "true" || operand == "false" then
          .bool (operand == "true")
        else if operand == "null" then .null
        else if cs.contains '.' then
          match stodChars cs with
          | some d => .double d
          | none =>
            match s.vars.lookup operand with
            | some v => v
            | none => .int 0
        else
          match stoiChars cs with
          | some n => .int n
          | none =>
            match s.vars.lookup operand with
            | some v => v
            | none => .int 0
      .ok ({ vm with state := { s with stack := pushed :: s.stack } }, [])
  | .STORE =>
    match s.stack with
    | [] => .error (.accessError ("Stack underflow during STORE operation") instr.line)
    | val :: rest =>
      match instr.operands with
      | [] => .error (.accessError ("STORE operation missing variable name") instr.line)
      | varName :: _ =>
        .ok ({ vm with state :=
          { s with stack := rest, vars := mapSet s.vars varName val } }, [])
  | .FUNC =>
    match instr.operands with
    | [] => .ok (vm, [])
    | funcName :: _ =>
      .ok ({ vm with state :=
        { s with functions := funcMapSet s.functions funcName s.pc,
                 scopes := s.scopes ++ [[]] } }, [])
  | .CALL => .error (.unmodelled ("CALL"))
  | .IF =>
    match s.stack with
    | [] => .error (.fatalExit ("IF: Stack is empty"))
    | cond :: rest =>
      let s2 := { s with stack := rest }
      if getBoolValue cond then .ok ({ vm with state := s2 }, [])
      else .ok ({ vm with state := jumpToElseOrEnd s2 }, [])
  | .WHILE =>
    match s.stack with
    | [] => .error (.accessError ("Stack is empty during WHILE operation") instr.line)
    | cond :: rest =>
      if getBoolValue cond then
        -- record the loop start: static_cast of pc - 1 to int
        .ok ({ vm with state :=
          { s with stack := .int (wrap32 ((s.pc : Int) - 1)) :: rest } }, [])
      else
        .ok ({ vm with state := jumpToEnd { s with stack := rest } }, [])
  | .ELSE => .ok ({ vm with state := jumpToEnd s }, [])
  | .END =>
    -- jump back when the stack top is an int within program bounds;
    -- the sentinel is inspected, not popped
    match s.stack with
    | .int loopStart :: _ =>
      if 0 ≤ loopStart && loopStart < (s.program.length : Int) then
        .ok ({ vm with state := { s with pc := loopStart.toNat } }, [])
      else .ok (vm, [])
    | _ => .ok (vm, [])
  | .DO => .ok (vm, [])
  | .RETURN =>
    match s.stack with
    | .int returnAddr :: rest =>
      let scopes2 := if s.scopes.length > 1 then s.scopes.dropLast else s.scopes
      -- static_cast of the int return address back to size_t
      .ok ({ vm with state :=
        { s with stack := rest, pc := (returnAddr % 2 ^ 64).toNat,
                 scopes := scopes2 } }, [])
    | _ => .ok ({ vm with state := { s with running := false } }, [])
  | .IMPORT =>
    match instr.operands with
    | [] => .ok (vm, [])
    | moduleName :: _ => .ok (vm, ["Importing module: " ++ moduleName])
  | .PRINT =>
    match s.stack with
    | [] => .ok (vm, [])
    | val :: rest =>
      .ok ({ vm with state := { s with stack := rest } }, [renderValue val])
  | .INPUT => .error (.unmodelled ("INPUT"))
  | .BINARY_OP =>
    match s.stack with
    | right :: left :: rest =>
      match instr.operands with
      | [] => .error (.accessError ("BINARY_OP operation missing operator") instr.line)
      | op :: _ =>
        match performBinaryOperation left right op instr.line with
        | .error e => .error e
        | .ok result =>
          .ok ({ vm with state := { s with stack := result :: rest } }, [])
    | _ => .error (.accessError ("Stack underflow during BINARY_OP operation") instr.line)
  | .UNARY_OP =>
    match s.stack with
    | operand :: rest =>
      match instr.operands with
      | [] => .error (.accessError ("UNARY_OP operation missing operator") instr.line)
      | op :: _ =>
        match performUnaryOperation operand op instr.line with
        | .error e => .error e
        | .ok result =>
          .ok ({ vm with state := { s with stack := result :: rest } }, [])
    | _ => .error (.accessError ("Stack underflow during UNARY_OP operation") instr.line)
  | .PUSH =>
    match instr.operands with
    | [] => .ok (vm, [])
    | operand :: _ =>
      let cs := operand.data
      let pushed : Value :=
        if cs.contains '.' then
          match stodChars cs with
          | some d => .double d
          | none => .str operand
        else
          match stoiChars cs with
          | some n => .int n
          | none => .str operand
      .ok ({ vm with state := { s with stack := pushed :: s.stack } }, [])
  | .POP =>
    match s.stack with
    | [] => .ok (vm, [])
    | _ :: rest => .ok ({ vm with state := { s with stack := rest } }, [])
  | .GOTO =>
    match instr.operands with
    | [] => .ok (vm, [])
    | label :: _ =>
      match findLabelIdx s.program label with
      | some i => .ok ({ vm with state := { s with pc := i } }, [])
      | none => .error (.runtimeError ("Undefined label: " ++ label) instr.line)
  | .LABEL => .ok (vm, [])
  | .GC_NEW =>
    match s.stack with
    | [] => .ok ({ vm with state := { s with stack := .long 1 :: s.stack } }, [])
    | top :: rest =>
      .ok ({ vm with state :=
        { s with stack := .long (getInt64Value top) :: rest } }, [])
  | .GC_DELETE =>
    match s.stack with
    | [] => .ok (vm, [])
    | _ :: rest => .ok ({ vm with state := { s with stack := rest } }, [])
  | .GC_RUN =>
    -- runGarbageCollection runs both collectors and discards their
    -- results; the pushed count is the literal int 0
    .ok ({ vm with
            vmgc := vm.vmgc.collect.1,
            sgc := vm.sgc.collect.1,
            state := { s with stack := .int 0 :: s.stack } }, [])
  | .MEM_MALLOC => .error (.unmodelled ("MEM_MALLOC"))
  | .MEM_FREE => .error (.unmodelled ("MEM_FREE"))
  | .TRY => .ok (vm, [])
  | .CATCH => .ok (vm, [])
  | .BREAK => .ok (vm, [])
  | .CONTINUE => .ok (vm, [])
  | .PASS => .ok (vm, [])
  | .PACKAGE => .ok (vm, [])
  | .PTR_NEW =>
    match s.stack with
    | _ :: rest =>
      -- the size hint is popped and ignored; no allocation happens
      .ok ({ vm with state := { s with stack := .ptr ptrNewResult :: rest } }, [])
    | [] =>
      .ok ({ vm with state := { s with stack := [.ptr ptrNewResult] } }, [])
  | .PTR_DEREF =>
    match s.stack with
    | [] => .ok (vm, [])
    | top :: rest =>
      match top with
      | .ptr p =>
        if !p.isNull then
          .ok ({ vm with state := { s with stack := .int 0 :: rest } }, [])
        else .error (.runtimeError ("Cannot dereference null pointer") instr.line)
      | _ => .ok ({ vm with state := { s with stack := top :: rest } }, [])
  | .THROW =>
    match s.stack with
    | [] => .error (.runtimeError ("Exception thrown") instr.line)
    | top :: _ =>
      match top with
      | .str msg => .error (.runtimeError msg instr.line)
      | _ => .error (.runtimeError ("Unknown exception occurred") instr.line)
  | .NOP => .ok (vm, [])
  | .DEBUG =>
    -- the default branch of the switch warns on standard error and goes on
    .ok (vm, [])

/-- The interpreter loop of VirtualMachine::execute (vm.cpp): while running
and the pc is inside the program, decode and execute the instruction at the
pc and then advance the pc by one.  Fuel-indexed; none is returned only when
the fuel runs out before the machine halts. -/
def runSteps : Nat → VMState → List String → Option (Except VMError (List String))
  | 0, vm, out =>
    if vm.state.running && vm.state.pc < vm.state.program.length then none
    else some (.ok out)
  | fuel + 1, vm, out =>
    if vm.state.running && vm.state.pc < vm.state.program.length then
      match vm.state.program.get? vm.state.pc with
      | none => some (.ok out)
      | some instr =>
        match decodeAndExecute instr vm with
        | .error e => some (.error e)
        | .ok (vm2, chunks) =>
          runSteps fuel
            { vm2 with state := { vm2.state with pc := vm2.state.pc + 1 } }
            (out ++ chunks)
    else some (.ok out)

/-- Execute a program from a fresh machine as VirtualMachine::execute does
(after the disabled JIT check): pc zero, running true, then the loop.  The
result is the list of standard-output lines, or the exception that aborted
the run; none only when the fuel was insufficient. -/
def runProgramOut (fuel : Nat) (prog : List Instruction) :
    Option (Except VMError (List String)) :=
  runSteps fuel
    { initialVMState prog with state :=
        { initialMachineState prog with running := true } }
    []

/-- Lowercasing applied by the bool builtin: std::transform with tolower
over the bytes; on the ASCII range tolower maps only the uppercase
letters. -/
def asciiLowerChar (c : Char) : Char :=
  if 'A' ≤ c && c ≤ 'Z' then Char.ofNat (c.toNat + 32) else c

/-- Lowercase a whole string byte by byte. -/
def asciiLower (s : String) : String :=
  String.mk (s.data.map asciiLowerChar)

/-- Model of the bool builtin registered in registerBuiltInFunctions
(vm.cpp).  The chain tests int, int64_t, double, string (lowercased, false
when equal to false or 0 or empty), bool, nullptr; a pointer, list or
dictionary matches no branch and falls through to the final return
Value(false), as does an empty argument list. -/
def builtinBool (args : List Value) : Value :=
  match args with
  | [] => .bool false
  | a :: _ =>
    match a with
    | .int n => .bool (n != 0)
    | .long n => .bool (n != 0)
    | .double d => .bool (d != 0)
    | .str s =>
      let t := asciiLower s
      .bool (t != "false" && t != "0" && !strEmpty t)
    | .bool b => .bool b
    | .null => .bool false
    | _ => .bool false

/-- Lookup in the file-handle table (unordered_map find by key). -/
def findHandle : List (Int × FileHandle) → Int → Option FileHandle
  | [], _ => none
  | (k, h) :: rest, id => if k = id then some h else findHandle rest id

/-- Erase one entry of the file-handle table by key (unordered_map erase of
a found iterator; keys are unique, so removing the first binding matches). -/
def eraseHandle : List (Int × FileHandle) → Int → List (Int × FileHandle)
  | [], _ => []
  | (k, h) :: rest, id => if k = id then rest else (k, h) :: eraseHandle rest id

/-- Remove the first managed object whose data payload equals the handle
identifier, the loop-and-break of the close builtin. -/
def removeObjByData : List (Int × ManagedObject) → Int → List (Int × ManagedObject)
  | [], _ => []
  | (k, o) :: rest, d =>
    if o.data = d then rest else (k, o) :: removeObjByData rest d

/-- The default-constructed PointerValue returned by the open builtin on
failure: null object, null raw pointer, empty type tag. -/
def nullPointerValue : PointerValue :=
  { obj := none, ptr := 0, type := "", isNull := true, isWeak := false, isRef := false }

/-- Model of the open builtin registered in registerBuiltInFunctions
(vm.cpp).  Whether the host filesystem accepts the open is outside the
embedding and enters as the osOpenSucceeds oracle.  On success a fresh
handle identifier is drawn from the counter, the handle enters the table, a
managed object carrying the identifier as its data enters the registry, and
a non-null file PointerValue is returned; on failure (or on arguments of
the wrong shape) the state is unchanged and a null PointerValue is
returned.  With two or more arguments both must be strings; with one
string argument the mode defaults to r. -/
def openBuiltin (vm : VMState) (args : List Value) (osOpenSucceeds : Bool) :
    Value × VMState :=
  let openFile (filename mode : String) : Value × VMState :=
    if osOpenSucceeds then
      let handleId := vm.nextFileHandleId
      let handle : FileHandle := { filename := filename, mode := mode, isOpen := true }
      let obj : ManagedObject := { data := handleId, type := "file", size := 8 }
      (.ptr { obj := some handleId, ptr := handleId, type := "file",
              isNull := false, isWeak := false, isRef := false },
       { vm with
          nextFileHandleId := handleId + 1,
          fileHandles := vm.fileHandles ++ [(handleId, handle)],
          managedObjects := vm.managedObjects ++ [(handleId, obj)] })
    else (.ptr nullPointerValue, vm)
  match args with
  | a :: b :: _ =>
    match a, b with
    | .str filename, .str mode => openFile filename mode
    | _, _ => (.ptr nullPointerValue, vm)
  | [.str filename] => openFile filename "r"
  | _ => (.ptr nullPointerValue, vm)

/-- Model of the close builtin registered in registerBuiltInFunctions
(vm.cpp).  A non-null PointerValue argument is reinterpreted as a handle
identifier; a known identifier is closed: the entry leaves the handle
table, the first managed object whose data equals the identifier leaves
the registry, and 0 is returned.  An unknown identifier, a null pointer or
a non-pointer argument leaves the state unchanged and returns the error
code -1 (a diagnostic goes to standard error; nothing is thrown). -/
def closeBuiltin (vm : VMState) (args : List Value) : Value × VMState :=
  match args with
  | .ptr ptrVal :: _ =>
    if !ptrVal.isNull then
      let handleId := ptrVal.ptr
      match findHandle vm.fileHandles handleId with
      | some _ =>
        (.int 0,
         { vm with
            fileHandles := eraseHandle vm.fileHandles handleId,
            managedObjects := removeObjByData vm.managedObjects handleId })
      | none => (.int (-1), vm)
    else (.int (-1), vm)
  | _ => (.int (-1), vm)

/-- The eighteen-instruction counting-loop program of the specification's
end-to-end scenario four, as decoded instructions. -/
def countingLoopProgram : List Instruction := [
  { type := .DEFVAR, operands := ["i"], line := 1 },
  { type := .LOAD, operands := ["0"], line := 2 },
  { type := .STORE, operands := ["i"], line := 3 },
  { type := .LOAD, operands := ["i"], line := 4 },
  { type := .LOAD, operands := ["3"], line := 5 },
  { type := .BINARY_OP, operands := ["<"], line := 6 },
  { type := .WHILE, operands := [], line := 7 },
  { type := .DO, operands := [], line := 8 },
  { type := .LOAD, operands := ["i"], line := 9 },
  { type := .PRINT, operands := [], line := 10 },
  { type := .LOAD, operands := ["i"], line := 11 },
  { type := .LOAD, operands := ["1"], line := 12 },
  { type := .BINARY_OP, operands := ["+"], line := 13 },
  { type := .STORE, operands := ["i"], line := 14 },
  { type := .LOAD, operands := ["i"], line := 15 },
  { type := .LOAD, operands := ["3"], line := 16 },
  { type := .BINARY_OP, operands := ["<"], line := 17 },
  { type := .END, operands := [], line := 18 }
]

/-- The textual IR of the specification's string-concatenation scenario. -/
def stringConcatSource : String :=
  "LOAD \"foo\"\nLOAD \"bar\"\nBINARY_OP +\nPRINT"

/-- A heap for GarbageCollector::collect holding root cell 2 and the
unreachable cell 1, with an edge recorded from 1 to 2. -/
def staleEdgeHeap : GarbageCollector :=
  { objects := [1, 2], rootObjects := [2], references := [(1, [2])] }

/-- A machine about to execute STORE x while an enclosing scope frame binds
x: the scope stack holds an outer empty frame and a top frame binding x to
int 5, the global map is empty and int 7 waits on the stack. -/
def storeScopeState : VMState :=
  { initialVMState [] with state :=
      { initialMachineState [] with
          scopes := [[], [("x", Value.int 5)]],
          stack := [Value.int 7] } }

/-- A machine about to execute PTR_NEW with the size hint int 8 on the
stack. -/
def ptrNewState : VMState :=
  { initialVMState [] with state :=
      { initialMachineState [] with stack := [Value.int 8] } }

/-- C1.  Running the counting-loop program prints the single line 0 and
halts: after the loop body the recomputed condition on top of the stack is
a bool, the END case only jumps back when the top is an int, so the loop
head is never re-entered.  The claimed output 0, 1, 2 is not produced. -/
theorem C1_loop_prints_zero_once :
    runProgramOut 32 countingLoopProgram = some (.ok ["0"]) := by rfl

/-- C2.  On a heap whose cell 1 is unreachable from the roots,
GarbageCollector::collect deletes cell 1 from the object list yet returns
0 instead of 1 (the sweep's count is discarded), and the reference entry of
the freed cell remains in the graph instead of being purged. -/
theorem C2_collect_returns_zero_keeps_stale_edges :
    GarbageCollector.collect staleEdgeHeap =
      ({ objects := [2], rootObjects := [2], references := [(1, [2])] }, 0) := by rfl

/-- C4.  Decoding and running the string-concatenation program prints the
single line 0, not foobar: parseIR strips the quotes from the operands, the
LOAD case then fails its own quote test, treats foo and bar as undefined
variable names and pushes int 0 for each, and the sum of the two zeroes is
printed. -/
theorem C4_string_concat_program_prints_zero :
    runProgramOut 16 (parseIR stringConcatSource) = some (.ok ["0"]) := by rfl

/-- C5 counterexample.  Executing STORE x on a machine whose top scope
frame binds x leaves every scope frame untouched and writes x into the
global variable map instead, refuting the nearest-enclosing-binding
claim. -/
theorem C5_store_ignores_scopes_counterexample :
    decodeAndExecute { type := .STORE, operands := ["x"], line := 1 } storeScopeState =
      .ok ({ storeScopeState with state :=
        { storeScopeState.state with
            stack := [], vars := [("x", Value.int 7)] } }, []) := by rfl

/-- C6 counterexample.  Adding the two 32-bit ints 2147483647 and 1
produces the int64_t value 2147483648: the operation is computed in 64 bits
and tagged long, not performed in 32-bit arithmetic with a 32-bit int
result as claimed. -/
theorem C6_int_add_returns_long_counterexample :
    performBinaryOperation (Value.int 2147483647) (Value.int 1) "+" 0 =
      .ok (Value.long 2147483648) := by rfl

/-- C7 counterexample.  Executing PTR_NEW with a size hint on the stack
pushes a PointerValue whose isNull flag is true (the placeholder is built
from a null object pointer), refuting the claimed non-null result; no
managed object is allocated. -/
theorem C7_ptr_new_pushes_null_counterexample :
    decodeAndExecute { type := .PTR_NEW, operands := [], line := 1 } ptrNewState =
      .ok ({ ptrNewState with state :=
        { ptrNewState.state with
            stack := [Value.ptr { obj := none, ptr := 0, type := "object",
                                  isNull := true, isWeak := false,
                                  isRef := false }] } }, []) := by rfl

/-- C8 counterexample.  On the string false the bool builtin returns false
while the branch truthiness used by IF and WHILE is true, so the two
functions do not agree on every string. -/
theorem C8_bool_builtin_disagrees_counterexample :
    builtinBool [Value.str "false"] = Value.bool false ∧
      getBoolValue (Value.str "false") = true := by
  exact ⟨rfl, rfl⟩

/-- A value satisfying isIntLike is an int or an int64_t. -/
theorem isIntLike_cases {v : Value} (h : v.isIntLike = true) :
    (∃ n, v = Value.int n) ∨ (∃ n, v = Value.long n) := by
  cases v
  case int n => exact Or.inl ⟨n, rfl⟩
  case long n => exact Or.inr ⟨n, rfl⟩
  all_goals simp [Value.isIntLike] at h

/-- C3.  For integer operands (32-bit or 64-bit) a division or modulo whose
right side is zero throws RuntimeError, dividing doubles by the double zero
throws RuntimeError, and the BINARY_OP dispatch propagates the error
instead of pushing a result value. -/
theorem C3_division_modulo_by_zero_error (l r : Value) (line : Int)
    (vm : VMState) (rest : List Value)
    (hl : l.isIntLike = true) (hr : r.isIntLike = true)
    (hz : getInt64Value r = 0) :
    performBinaryOperation l r "/" line =
        .error (.runtimeError ("Division by zero error") line)
    ∧ performBinaryOperation l r "%" line =
        .error (.runtimeError ("Modulo by zero error") line)
    ∧ (∀ a : Rat, performBinaryOperation (.double a) (.double 0) "/" line =
        .error (.runtimeError ("Division by zero error") line))
    ∧ decodeAndExecute { type := .BINARY_OP, operands := ["/"], line := line }
        { vm with state := { vm.state with stack := r :: l :: rest } } =
        .error (.runtimeError ("Division by zero error") line) := by
  rcases isIntLike_cases hl with ⟨a, rfl⟩ | ⟨a, rfl⟩ <;>
    rcases isIntLike_cases hr with ⟨b, rfl⟩ | ⟨b, rfl⟩
  all_goals
    have hb : b = 0 := by simpa [getInt64Value] using hz
  all_goals subst hb
  all_goals exact ⟨rfl, rfl, fun _ => rfl, rfl⟩

/-- C3 witness: dividing int 10 by int 0 at line 5 raises the runtime
error, also through the BINARY_OP dispatch. -/
theorem C3_division_modulo_by_zero_error_witness :
    performBinaryOperation (Value.int 10) (Value.int 0) "/" 5 =
        .error (.runtimeError ("Division by zero error") 5)
    ∧ performBinaryOperation (Value.int 10) (Value.int 0) "%" 5 =
        .error (.runtimeError ("Modulo by zero error") 5) := by
  have h := C3_division_modulo_by_zero_error (Value.int 10) (Value.int 0) 5
    (initialVMState []) [] rfl rfl rfl
  exact ⟨h.1, h.2.1⟩

/-- C6 amended.  Arithmetic on two integer operands is always computed in
64-bit two's complement after converting both sides with getInt64Value, and
the result value is always tagged as a 64-bit long, even when both operands
are 32-bit ints; a mixed int and long pair therefore promotes to long. -/
theorem C6_integer_ops_always_64bit (l r : Value) (line : Int)
    (hl : l.isIntLike = true) (hr : r.isIntLike = true) :
    performBinaryOperation l r "+" line =
        .ok (.long (wrap64 (getInt64Value l + getInt64Value r)))
    ∧ performBinaryOperation l r "-" line =
        .ok (.long (wrap64 (getInt64Value l - getInt64Value r)))
    ∧ performBinaryOperation l r "*" line =
        .ok (.long (wrap64 (getInt64Value l * getInt64Value r)))
    ∧ (getInt64Value r ≠ 0 →
        performBinaryOperation l r "/" line =
          .ok (.long (wrap64 ((getInt64Value l).tdiv (getInt64Value r)))))
    ∧ (getInt64Value r ≠ 0 →
        performBinaryOperation l r "%" line =
          .ok (.long (wrap64 ((getInt64Value l).tmod (getInt64Value r))))) := by
  rcases isIntLike_cases hl with ⟨a, rfl⟩ | ⟨a, rfl⟩ <;>
    rcases isIntLike_cases hr with ⟨b, rfl⟩ | ⟨b, rfl⟩
  all_goals
    refine ⟨rfl, rfl, rfl, fun hb => ?_, fun hb => ?_⟩ <;>
      (have hbb : (b == 0) = false := by simpa using hb
       simp [performBinaryOperation, Value.isDouble, Value.isIntLike,
             getInt64Value, hbb])

/-- C6 witness: int 7 plus long 3 is long 10, and int 7 divided by long 3
is long 2, the two's-complement 64-bit results. -/
theorem C6_integer_ops_always_64bit_witness :
    performBinaryOperation (Value.int 7) (Value.long 3) "+" 0 =
        .ok (Value.long 10)
    ∧ performBinaryOperation (Value.int 7) (Value.long 3) "/" 0 =
        .ok (Value.long 2) := by
  have h := C6_integer_ops_always_64bit (Value.int 7) (Value.long 3) 0 rfl rfl
  exact ⟨h.1, h.2.2.2.1 (by decide)⟩

/-- C5 amended.  On any machine with a non-empty scope stack, DEFVAR
installs the annotation-stripped name with value int 0 in the GLOBAL
variable map, and STORE pops the stack top into the GLOBAL variable map;
neither consults nor modifies any scope frame, so the nearest-enclosing
binding is never used. -/
theorem C5_defvar_store_write_global_map (vm : VMState) (name : String)
    (hscopes : vm.state.scopes ≠ []) :
    (∀ ops line,
      decodeAndExecute { type := .DEFVAR, operands := name :: ops, line := line } vm =
        .ok ({ vm with state := { vm.state with
          vars := mapSet vm.state.vars (stripTypeAnn name) (Value.int 0) } }, []))
    ∧ (∀ v rest ops line, vm.state.stack = v :: rest →
      decodeAndExecute { type := .STORE, operands := name :: ops, line := line } vm =
        .ok ({ vm with state := { vm.state with
          stack := rest, vars := mapSet vm.state.vars name v } }, [])) := by
  refine ⟨fun ops line => rfl, fun v rest ops line hstack => ?_⟩
  simp only [decodeAndExecute, hstack]

/-- C5 witness: on the fresh machine (a single empty scope frame) DEFVAR
of the annotated name installs the plain name in the global map, and on a
machine holding int 3 on the stack STORE writes it to the global map. -/
theorem C5_defvar_store_write_global_map_witness :
    decodeAndExecute { type := .DEFVAR, operands := ["y:int"], line := 1 }
        (initialVMState []) =
      .ok ({ initialVMState [] with state := { (initialVMState []).state with
        vars := [("y", Value.int 0)] } }, [])
    ∧ decodeAndExecute { type := .STORE, operands := ["x"], line := 1 }
        { initialVMState [] with state :=
            { initialMachineState [] with stack := [Value.int 3] } } =
      .ok ({ initialVMState [] with state :=
        { initialMachineState [] with
            stack := [],
            vars := [("x", Value.int 3)] } }, []) := by
  have h := C5_defvar_store_write_global_map (initialVMState []) ("y:int")
    (by simp [initialVMState, initialMachineState])
  have h2 := C5_defvar_store_write_global_map
    { initialVMState [] with state :=
        { initialMachineState [] with stack := [Value.int 3] } } ("x")
    (by simp [initialVMState, initialMachineState])
  exact ⟨h.1 [] 1, h2.2 (Value.int 3) [] [] 1 rfl⟩

/-- C7 amended.  PTR_NEW pops the size hint when one is available (and
nothing otherwise) and pushes a PointerValue built from a null object
pointer: its isNull flag is true and no managed object is allocated. -/
theorem C7_ptr_new_pushes_null_pointer (vm : VMState) (ops : List String) (line : Int) :
    ptrNewResult.isNull = true
    ∧ (vm.state.stack = [] →
        decodeAndExecute { type := .PTR_NEW, operands := ops, line := line } vm =
          .ok ({ vm with state := { vm.state with
            stack := [Value.ptr ptrNewResult] } }, []))
    ∧ (∀ v rest, vm.state.stack = v :: rest →
        decodeAndExecute { type := .PTR_NEW, operands := ops, line := line } vm =
          .ok ({ vm with state := { vm.state with
            stack := Value.ptr ptrNewResult :: rest } }, [])) := by
  refine ⟨rfl, fun h => ?_, fun v rest h => ?_⟩ <;>
    simp only [decodeAndExecute, h]

/-- C7 witness: PTR_NEW on the fresh machine with an empty stack pushes the
null object PointerValue. -/
theorem C7_ptr_new_pushes_null_pointer_witness :
    decodeAndExecute { type := .PTR_NEW, operands := [], line := 1 }
        (initialVMState []) =
      .ok ({ initialVMState [] with state := { (initialVMState []).state with
        stack := [Value.ptr ptrNewResult] } }, []) := by
  have h := C7_ptr_new_pushes_null_pointer (initialVMState []) [] 1
  exact h.2.1 rfl

/-- A non-empty string has a false emptiness test. -/
theorem strEmpty_eq_false {s : String} (h : s ≠ "") : strEmpty s = false := by
  cases s with
  | mk data =>
    cases data with
    | nil => exact absurd rfl h
    | cons c cs => rfl

/-- Lowercasing preserves emptiness. -/
theorem strEmpty_asciiLower (s : String) : strEmpty (asciiLower s) = strEmpty s := by
  cases s with
  | mk data => cases data <;> rfl

/-- C8 amended.  The bool builtin and the branch truthiness getBoolValue
agree on every int, long, double, bool, null and pointer value, on the
empty string, on empty lists and dictionaries, and on every string whose
lowercasing is neither false nor 0; they disagree exactly on the non-empty
strings lowercasing to false or 0 and on non-empty lists and dictionaries,
where the builtin returns false while the branch truthiness is true. -/
theorem C8_truthiness_agreement_amended :
    (∀ n : Int, builtinBool [Value.int n] = Value.bool (getBoolValue (Value.int n)))
    ∧ (∀ n : Int, builtinBool [Value.long n] = Value.bool (getBoolValue (Value.long n)))
    ∧ (∀ d : Rat, builtinBool [Value.double d] = Value.bool (getBoolValue (Value.double d)))
    ∧ (∀ b : Bool, builtinBool [Value.bool b] = Value.bool (getBoolValue (Value.bool b)))
    ∧ builtinBool [Value.null] = Value.bool (getBoolValue Value.null)
    ∧ (∀ p : PointerValue, builtinBool [Value.ptr p] = Value.bool (getBoolValue (Value.ptr p)))
    ∧ (∀ s : String, s ≠ "" → asciiLower s = "false" ∨ asciiLower s = "0" →
        builtinBool [Value.str s] = Value.bool false
          ∧ getBoolValue (Value.str s) = true)
    ∧ (∀ s : String, asciiLower s ≠ "false" → asciiLower s ≠ "0" →
        builtinBool [Value.str s] = Value.bool (getBoolValue (Value.str s)))
    ∧ (∀ l : List Value, l ≠ [] →
        builtinBool [Value.list l] = Value.bool false
          ∧ getBoolValue (Value.list l) = true)
    ∧ (∀ d : List (String × Value), d ≠ [] →
        builtinBool [Value.dict d] = Value.bool false
          ∧ getBoolValue (Value.dict d) = true)
    ∧ builtinBool [Value.list []] = Value.bool (getBoolValue (Value.list []))
    ∧ builtinBool [Value.dict []] = Value.bool (getBoolValue (Value.dict [])) := by
  refine ⟨fun n => rfl, fun n => rfl, fun d => rfl, fun b => rfl, rfl, fun p => rfl,
    ?_, ?_, ?_, ?_, rfl, rfl⟩
  · intro s hne hlow
    constructor
    · rcases hlow with h | h <;> simp [builtinBool, h]
    · simp [getBoolValue, strEmpty_eq_false hne]
  · intro s h1 h2
    have hb1 : (asciiLower s != "false") = true := by simpa using h1
    have hb2 : (asciiLower s != "0") = true := by simpa using h2
    simp [builtinBool, getBoolValue, hb1, hb2, strEmpty_asciiLower]
  · intro l hl
    cases l with
    | nil => exact absurd rfl hl
    | cons x xs => exact ⟨rfl, rfl⟩
  · intro d hd
    cases d with
    | nil => exact absurd rfl hd
    | cons x xs => exact ⟨rfl, rfl⟩

/-- C8 witness: on the string 0 and on a one-element list the builtin
returns false while the branch truthiness is true; on the long 0 the two
agree. -/
theorem C8_truthiness_agreement_amended_witness :
    (builtinBool [Value.str "0"] = Value.bool false
      ∧ getBoolValue (Value.str "0") = true)
    ∧ (builtinBool [Value.list [Value.int 1]] = Value.bool false
      ∧ getBoolValue (Value.list [Value.int 1]) = true)
    ∧ builtinBool [Value.long 0] = Value.bool (getBoolValue (Value.long 0)) := by
  have h := C8_truthiness_agreement_amended
  exact ⟨h.2.2.2.2.2.2.1 ("0") (by decide) (Or.inr rfl),
    h.2.2.2.2.2.2.2.2.1 [Value.int 1] (List.cons_ne_nil _ _),
    h.2.1 0⟩

/-- Appending a fresh binding leaves it findable by its key. -/
theorem findHandle_append_of_none (l : List (Int × FileHandle)) (k : Int)
    (h : FileHandle) (hl : findHandle l k = none) :
    findHandle (l ++ [(k, h)]) k = some h := by
  induction l with
  | nil => simp [findHandle]
  | cons p rest ih =>
    obtain ⟨k1, h1⟩ := p
    by_cases hk : k1 = k
    · simp [findHandle, hk] at hl
    · simp only [findHandle, List.cons_append, if_neg hk] at hl ⊢
      exact ih hl

/-- Erasing a freshly appended binding restores the original table. -/
theorem eraseHandle_append_of_none (l : List (Int × FileHandle)) (k : Int)
    (h : FileHandle) (hl : findHandle l k = none) :
    eraseHandle (l ++ [(k, h)]) k = l := by
  induction l with
  | nil => simp [eraseHandle]
  | cons p rest ih =>
    obtain ⟨k1, h1⟩ := p
    by_cases hk : k1 = k
    · simp [findHandle, hk] at hl
    · simp only [findHandle, if_neg hk] at hl
      simp only [eraseHandle, List.cons_append, if_neg hk]
      exact congrArg (List.cons (k1, h1)) (ih hl)

/-- C9.  When the host open succeeds on a table whose next identifier is
fresh, closing the returned handle returns 0 and removes exactly that
handle, restoring the file-handle table (hence its size); closing the same
handle again finds nothing, returns the error code -1 without throwing and
leaves the table unchanged. -/
theorem C9_open_close_roundtrip (vm : VMState) (path mode : String)
    (hfresh : findHandle vm.fileHandles vm.nextFileHandleId = none) :
    (closeBuiltin (openBuiltin vm [Value.str path, Value.str mode] true).2
        [(openBuiltin vm [Value.str path, Value.str mode] true).1]).1 = Value.int 0
    ∧ (closeBuiltin (openBuiltin vm [Value.str path, Value.str mode] true).2
        [(openBuiltin vm [Value.str path, Value.str mode] true).1]).2.fileHandles
        = vm.fileHandles
    ∧ closeBuiltin
        (closeBuiltin (openBuiltin vm [Value.str path, Value.str mode] true).2
          [(openBuiltin vm [Value.str path, Value.str mode] true).1]).2
        [(openBuiltin vm [Value.str path, Value.str mode] true).1] =
      (Value.int (-1),
        (closeBuiltin (openBuiltin vm [Value.str path, Value.str mode] true).2
          [(openBuiltin vm [Value.str path, Value.str mode] true).1]).2) := by
  have h1 := findHandle_append_of_none vm.fileHandles vm.nextFileHandleId
    ⟨path, mode, true⟩ hfresh
  have h2 := eraseHandle_append_of_none vm.fileHandles vm.nextFileHandleId
    ⟨path, mode, true⟩ hfresh
  refine ⟨?_, ?_, ?_⟩ <;>
    simp [openBuiltin, closeBuiltin, h1, h2, hfresh]

/-- C9 witness: opening a file on the fresh machine and closing the
returned handle returns 0 and leaves the (empty) table of the fresh
machine. -/
theorem C9_open_close_roundtrip_witness :
    (closeBuiltin
        (openBuiltin (initialVMState []) [Value.str "a.txt", Value.str "w"] true).2
        [(openBuiltin (initialVMState []) [Value.str "a.txt", Value.str "w"] true).1]).1
      = Value.int 0
    ∧ (closeBuiltin
        (openBuiltin (initialVMState []) [Value.str "a.txt", Value.str "w"] true).2
        [(openBuiltin (initialVMState []) [Value.str "a.txt", Value.str "w"] true).1]).2.fileHandles
      = [] := by
  have h := C9_open_close_roundtrip (initialVMState []) ("a.txt") ("w") rfl
  exact ⟨h.1, h.2.1⟩

/-- C10.  On every machine state and heap contents, executing GC_RUN runs
both collectors, discards whatever they report, and pushes the single
literal int 0 onto the operand stack, so the IR-visible collected count is
always 0 and the stack grows by exactly one. -/
theorem C10_gc_run_pushes_zero (vm : VMState) (ops : List String) (line : Int) :
    decodeAndExecute { type := .GC_RUN, operands := ops, line := line } vm =
      .ok ({ vm with
              vmgc := vm.vmgc.collect.1,
              sgc := vm.sgc.collect.1,
              state := { vm.state with
                stack := Value.int 0 :: vm.state.stack } }, []) := rfl

end Stevelang
